import Mathlib

/-!
# Aave V3 stress-test simulator: shallow embedding

A shallow embedding of the liquidation-cascade simulator found in
`src/app.py` (interactive driver) and `src/aave_simulation.py` (batch
script).  Python floats are modelled by exact rationals; the seeded
numpy random stream is modelled by an oracle (`RandomStream`) giving the
value of the k-th draw of each distribution, so that properties can be
stated for all draws in the support of the documented distributions.

The interactive driver is embedded at top level; the batch script, whose
engine is a near-verbatim copy, is embedded again in namespace `Batch`
so that the equivalence of the two entry points can be stated.
-/

/-- `ReserveConfig` from `src/app.py` lines 9-16 (identical in
`src/aave_simulation.py`): static reserve parameters plus the mutable
price. -/
structure ReserveConfig where
  name : String
  price : ℚ
  lt : ℚ
  ltv : ℚ
  lb : ℚ
  decimals : ℕ
deriving Repr, DecidableEq

/-- `SimulationConfig` from `src/app.py` lines 18-24: the interactive
driver's configuration record.  The constructor performs no validation:
it only stores the five fields. -/
structure SimulationConfig where
  eth_price_drop : ℚ
  market_liquidity_depth : ℚ
  num_users : ℕ
  whale_concentration : ℚ
  start_price : ℚ
deriving Repr, DecidableEq

/-- `User` from `src/app.py` lines 28-36 (identical in
`src/aave_simulation.py`): one borrower position. -/
structure User where
  uid : ℕ
  eth_collateral : ℚ
  usdc_debt : ℚ
  initial_eth : ℚ
  initial_debt : ℚ
  is_liquidated : Bool
  bad_debt : ℚ
deriving Repr, DecidableEq

/-- `User.calculate_hf` from `src/app.py` lines 38-48: health factor,
`none` standing for the float value inf returned when the debt is zero,
otherwise `(collateral * price * lt) / debt`. -/
def User.calculate_hf (u : User) (eth_reserve : ReserveConfig) : Option ℚ :=
  if u.usdc_debt = 0 then none
  else some ((u.eth_collateral * eth_reserve.price * eth_reserve.lt) / u.usdc_debt)

/-- The selection predicate `u.calculate_hf(reserve) < 1.0` from
`src/app.py` line 99: a comparison against inf is false, so a zero-debt
position is never selected. -/
def isLiquidatable (u : User) (eth_reserve : ReserveConfig) : Bool :=
  match u.calculate_hf eth_reserve with
  | none => false
  | some h => decide (h < 1)

/-- Oracle for the seeded numpy stream: `uniform k a b` is the value of
the k-th draw when that draw is `np.random.uniform(a, b)`, and
`exponential k s` the value when it is `np.random.exponential(s)`.
Seeding with the fixed seed 42 (`np.random.seed(42)` in both sources)
fixes the whole stream, so one `RandomStream` value models one seed. -/
structure RandomStream where
  uniform : ℕ → ℚ → ℚ → ℚ
  exponential : ℕ → ℚ → ℚ

/-- The whale test `i < self.config.num_users * self.config.whale_concentration`
from `src/app.py` line 68, an exact strict comparison of the index with
the rational product. -/
def isWhaleIdx (num_users : ℕ) (whale_concentration : ℚ) (i : ℕ) : Bool :=
  decide ((i : ℚ) < (num_users : ℚ) * whale_concentration)

/-- The collateral draw of user `i`, `src/app.py` lines 71 and 74:
`np.random.uniform(1000, 10000)` for a whale, `np.random.exponential(10)`
for a retail user (each user consumes draws 2i and 2i+1 of the
stream). -/
def drawEth (num_users : ℕ) (whale_concentration : ℚ) (rng : RandomStream) (i : ℕ) : ℚ :=
  if isWhaleIdx num_users whale_concentration i then rng.uniform (2 * i) 1000 10000
  else rng.exponential (2 * i) 10

/-- The target-health-factor draw of user `i`, `src/app.py` lines 72 and
75: `np.random.uniform(1.2, 1.8)` for a whale, `np.random.uniform(1.01, 2.0)`
for a retail user. -/
def drawTargetHF (num_users : ℕ) (whale_concentration : ℚ) (rng : RandomStream) (i : ℕ) : ℚ :=
  if isWhaleIdx num_users whale_concentration i then rng.uniform (2 * i + 1) (12/10) (18/10)
  else rng.uniform (2 * i + 1) (101/100) 2

/-- Body of the generation loop, `src/app.py` lines 70-81: draw the
collateral and the target health factor from the branch-selected
distributions, then back-solve the debt from the target at the current
price. -/
def genUser (num_users : ℕ) (whale_concentration : ℚ) (r : ReserveConfig)
    (rng : RandomStream) (i : ℕ) : User :=
  let eth_amt := drawEth num_users whale_concentration rng i
  let target_hf := drawTargetHF num_users whale_concentration rng i
  let collateral_usd := eth_amt * r.price
  let max_borrow := collateral_usd * r.lt
  let debt_usd := max_borrow / target_hf
  { uid := i, eth_collateral := eth_amt, usdc_debt := debt_usd,
    initial_eth := eth_amt, initial_debt := debt_usd,
    is_liquidated := false, bad_debt := 0 }

/-- `StressTestSimulation.generate_users` from `src/app.py` lines 64-81:
the users appended for indices `0 .. num_users - 1`. -/
def generate_users (num_users : ℕ) (whale_concentration : ℚ)
    (r : ReserveConfig) (rng : RandomStream) : List User :=
  (List.range num_users).map (genUser num_users whale_concentration r rng)

/-- One history entry, `src/app.py` lines 151-157. -/
structure Snapshot where
  stage : String
  eth_price : ℚ
  bad_debt : ℚ
  liquidatable_users : ℕ
  total_collateral_usd : ℚ
deriving Repr, DecidableEq

/-- `StressTestSimulation._snapshot_state` from `src/app.py` lines
146-157: aggregate metrics at the current price. -/
def snapshotOf (stage : String) (r : ReserveConfig) (users : List User) : Snapshot :=
  { stage := stage
    eth_price := r.price
    bad_debt := (users.map User.bad_debt).sum
    liquidatable_users := (users.filter (fun u => isLiquidatable u r)).length
    total_collateral_usd := (users.map (fun u => u.eth_collateral * r.price)).sum }

/-- Whole-simulation state: `config`, `eth_reserve`, `users`, `history`
of `StressTestSimulation.__init__`, `src/app.py` lines 52-59 (the
textual `logs` are display-only and carry no simulated state). -/
structure SimState where
  config : SimulationConfig
  eth_reserve : ReserveConfig
  users : List User
  history : List Snapshot
deriving Repr, DecidableEq

/-- `StressTestSimulation.__init__`, `src/app.py` lines 52-59: the ETH
reserve starts at the configured price with LT 0.825, LTV 0.80,
LB 0.05. -/
def initState (config : SimulationConfig) : SimState :=
  { config := config
    eth_reserve :=
      { name := "ETH", price := config.start_price,
        lt := 825/1000, ltv := 80/100, lb := 5/100, decimals := 18 }
    users := []
    history := [] }

/-- Phase 1 of `StressTestSimulation.run`, `src/app.py` lines 87-91:
price shock followed by the "Post-Shock" snapshot. -/
def shockPhase (s : SimState) : SimState :=
  let r := { s.eth_reserve with
             price := s.eth_reserve.price * (1 - s.config.eth_price_drop) }
  { s with eth_reserve := r,
           history := s.history ++ [snapshotOf "Post-Shock" r s.users] }

/-- Per-user liquidation step, `src/app.py` lines 107-128: close factor
0.5; wipe-out when the bonus-adjusted seizure exceeds the collateral,
else partial liquidation.  Returns the updated user and the seized
collateral amount. -/
def liquidateUser (r : ReserveConfig) (u : User) : User × ℚ :=
  let close_factor : ℚ := 1/2
  let debt_to_cover := u.usdc_debt * close_factor
  let bonus_multiplier := 1 + r.lb
  let collateral_to_seize_usd := debt_to_cover * bonus_multiplier
  let collateral_to_seize_eth := collateral_to_seize_usd / r.price
  if collateral_to_seize_eth > u.eth_collateral then
    let actual_seized_eth := u.eth_collateral
    let value_taken := actual_seized_eth * r.price
    let remaining_debt := u.usdc_debt - value_taken / bonus_multiplier
    ({ u with bad_debt := max 0 remaining_debt,
              eth_collateral := 0, usdc_debt := 0 }, actual_seized_eth)
  else
    ({ u with eth_collateral := u.eth_collateral - collateral_to_seize_eth,
              usdc_debt := u.usdc_debt - debt_to_cover }, collateral_to_seize_eth)

/-- One cascade round, `src/app.py` lines 104-139, called only when the
selection is non-empty: liquidate every selected user, apply the linear
market impact to the price, and append the round snapshot.  The source
iterates over the selection sorted by debt descending; the reserve price
is fixed while the users are processed and each selected user is updated
independently of the others, so the state after the round does not
depend on that iteration order, and the seized volume is the
(commutative) sum of the per-user seizures.  Returns the new state and
the round's slippage fraction. -/
def runRound (s : SimState) (round_num : ℕ) : SimState × ℚ :=
  let r := s.eth_reserve
  let liq := s.users.filter (fun u => isLiquidatable u r)
  let users := s.users.map (fun u =>
    if isLiquidatable u r then (liquidateUser r u).1 else u)
  let round_liquidation_vol_eth := (liq.map (fun u => (liquidateUser r u).2)).sum
  let liquidation_value_sold := round_liquidation_vol_eth * r.price
  let slippage_pct := (liquidation_value_sold / s.config.market_liquidity_depth) * (1/100)
  let newReserve := { r with price := r.price * (1 - slippage_pct) }
  ({ s with users := users, eth_reserve := newReserve,
            history := s.history ++
              [snapshotOf ("Round " ++ toString round_num) newReserve users] },
   slippage_pct)

/-- Phase 2 of `StressTestSimulation.run`, `src/app.py` lines 97-142:
the cascade loop.  Each iteration selects the liquidatable users, stops
when none remain (before any snapshot), else runs the round and stops
after its snapshot when the slippage fell below 0.0001.  The source
`while True` has no iteration cap; `fuel` bounds the number of rounds
the embedding unfolds. -/
def cascadeLoop : ℕ → ℕ → SimState → SimState
  | 0, _, s => s
  | fuel + 1, round_num, s =>
    if (s.users.filter (fun u => isLiquidatable u s.eth_reserve)).isEmpty then s
    else
      let step := runRound s round_num
      if step.2 < 1/10000 then step.1
      else cascadeLoop fuel (round_num + 1) step.1

/-- `StressTestSimulation.run`, `src/app.py` lines 83-144: generate the
population at the pre-shock price, apply the shock and its snapshot,
then run the cascade loop (round numbers start at 1). -/
def appRun (config : SimulationConfig) (rng : RandomStream) (fuel : ℕ) : SimState :=
  let s0 := initState config
  let s1 := { s0 with
              users := generate_users config.num_users config.whale_concentration
                s0.eth_reserve rng }
  cascadeLoop fuel 1 (shockPhase s1)

namespace Batch

/-!
Embedding of the batch script `src/aave_simulation.py`.  Its `User`,
`ReserveConfig` and snapshot records are field-for-field identical to
the interactive driver's, so the data model above is reused; the engine
code (configuration, generation, shock, cascade), of which the batch
file keeps its own copy, is embedded again here.
-/

/-- `SimulationConfig` from `src/aave_simulation.py` lines 17-23: a
niladic constructor that hard-codes every field. -/
structure Config where
  eth_price_drop : ℚ
  market_liquidity_depth : ℚ
  gas_cost_usd : ℚ
  num_users : ℕ
  whale_concentration : ℚ
deriving Repr, DecidableEq

/-- The (only) value `SimulationConfig()` can take in the batch script:
30% drop, $2M depth, $50 gas, 1000 users, 1% whales. -/
def defaultConfig : Config :=
  { eth_price_drop := 30/100, market_liquidity_depth := 2000000,
    gas_cost_usd := 50, num_users := 1000, whale_concentration := 1/100 }

/-- Batch simulation state, `StressTestSimulation.__init__` from
`src/aave_simulation.py` lines 72-78. -/
structure BState where
  config : Config
  eth_reserve : ReserveConfig
  users : List User
  history : List Snapshot
deriving Repr, DecidableEq

/-- `StressTestSimulation.__init__`, `src/aave_simulation.py` lines
72-78: config is the hard-coded default, the reserve starts at $2000. -/
def initState : BState :=
  { config := defaultConfig
    eth_reserve :=
      { name := "ETH", price := 2000, lt := 825/1000, ltv := 80/100,
        lb := 5/100, decimals := 18 }
    users := []
    history := [] }

/-- Generation-loop body, `src/aave_simulation.py` lines 84-104 (same
code as the interactive driver's). -/
def genUser (num_users : ℕ) (whale_concentration : ℚ) (r : ReserveConfig)
    (rng : RandomStream) (i : ℕ) : User :=
  let eth_amt :=
    if isWhaleIdx num_users whale_concentration i then rng.uniform (2 * i) 1000 10000
    else rng.exponential (2 * i) 10
  let target_hf :=
    if isWhaleIdx num_users whale_concentration i then rng.uniform (2 * i + 1) (12/10) (18/10)
    else rng.uniform (2 * i + 1) (101/100) 2
  let collateral_usd := eth_amt * r.price
  let max_borrow := collateral_usd * r.lt
  let debt_usd := max_borrow / target_hf
  { uid := i, eth_collateral := eth_amt, usdc_debt := debt_usd,
    initial_eth := eth_amt, initial_debt := debt_usd,
    is_liquidated := false, bad_debt := 0 }

/-- `StressTestSimulation.generate_users`, `src/aave_simulation.py`
lines 80-106. -/
def generate_users (s : BState) (rng : RandomStream) : BState :=
  let newUsers := (List.range s.config.num_users).map
    (genUser s.config.num_users s.config.whale_concentration s.eth_reserve rng)
  { s with users := s.users ++ newUsers }

/-- `StressTestSimulation.run_shock_phase`, `src/aave_simulation.py`
lines 108-115. -/
def shockPhase (s : BState) : BState :=
  let r := { s.eth_reserve with
             price := s.eth_reserve.price * (1 - s.config.eth_price_drop) }
  { s with eth_reserve := r,
           history := s.history ++ [snapshotOf "Post-Shock" r s.users] }

/-- Per-user liquidation step, `src/aave_simulation.py` lines 138-185
(same code as the interactive driver's lines 107-128). -/
def liquidateUser (r : ReserveConfig) (u : User) : User × ℚ :=
  let close_factor : ℚ := 1/2
  let debt_to_cover := u.usdc_debt * close_factor
  let bonus_multiplier := 1 + r.lb
  let collateral_to_seize_usd := debt_to_cover * bonus_multiplier
  let collateral_to_seize_eth := collateral_to_seize_usd / r.price
  if collateral_to_seize_eth > u.eth_collateral then
    let actual_seized_eth := u.eth_collateral
    let value_taken := actual_seized_eth * r.price
    let remaining_debt := u.usdc_debt - value_taken / bonus_multiplier
    ({ u with bad_debt := max 0 remaining_debt,
              eth_collateral := 0, usdc_debt := 0 }, actual_seized_eth)
  else
    ({ u with eth_collateral := u.eth_collateral - collateral_to_seize_eth,
              usdc_debt := u.usdc_debt - debt_to_cover }, collateral_to_seize_eth)

/-- One cascade round of `src/aave_simulation.py` lines 134-205 (the
same iteration-order remark as for the interactive driver's round
applies). -/
def runRound (s : BState) (round_num : ℕ) : BState × ℚ :=
  let r := s.eth_reserve
  let liq := s.users.filter (fun u => isLiquidatable u r)
  let users := s.users.map (fun u =>
    if isLiquidatable u r then (liquidateUser r u).1 else u)
  let round_liquidation_vol_eth := (liq.map (fun u => (liquidateUser r u).2)).sum
  let liquidation_value_sold := round_liquidation_vol_eth * r.price
  let slippage_pct := (liquidation_value_sold / s.config.market_liquidity_depth) * (1/100)
  let newReserve := { r with price := r.price * (1 - slippage_pct) }
  ({ s with users := users, eth_reserve := newReserve,
            history := s.history ++
              [snapshotOf ("Round " ++ toString round_num) newReserve users] },
   slippage_pct)

/-- `StressTestSimulation.run_liquidation_cascade`, `src/aave_simulation.py`
lines 117-211: same loop structure as the interactive driver. -/
def cascadeLoop : ℕ → ℕ → BState → BState
  | 0, _, s => s
  | fuel + 1, round_num, s =>
    if (s.users.filter (fun u => isLiquidatable u s.eth_reserve)).isEmpty then s
    else
      let step := runRound s round_num
      if step.2 < 1/10000 then step.1
      else cascadeLoop fuel (round_num + 1) step.1

/-- The batch entry point, `src/aave_simulation.py` lines 265-270:
`generate_users`, `run_shock_phase`, `run_liquidation_cascade` in
sequence on the freshly constructed simulation. -/
def run (rng : RandomStream) (fuel : ℕ) : BState :=
  cascadeLoop fuel 1 (shockPhase (generate_users initState rng))

end Batch

/-!
## Concrete inputs used by the witnesses and counterexamples
-/

/-- The interactive configuration equal to the batch script's hard-coded
one: 30% drop, $2M depth, 1000 users, 1% whale concentration, $2000
start price. -/
def cfgHard : SimulationConfig :=
  { eth_price_drop := 30/100, market_liquidity_depth := 2000000,
    num_users := 1000, whale_concentration := 1/100, start_price := 2000 }

/-- A degenerate but admissible configuration: 50% drop, a liquidity
depth of only $1, one retail user, $2000 start price. -/
def cfgThin : SimulationConfig :=
  { eth_price_drop := 1/2, market_liquidity_depth := 1,
    num_users := 1, whale_concentration := 0, start_price := 2000 }

/-- A stream whose retail draws are collateral 1 ETH and target health
factor 1.1 (both inside the documented supports). -/
def rngThin : RandomStream :=
  { uniform := fun _ _ _ => 11/10, exponential := fun _ _ => 1 }

/-- A stream returning the lower bound of every uniform draw and 999 for
every exponential draw (999 is in the support of the exponential
distribution; it differs from every uniform lower bound used by the
generator). -/
def rngLow : RandomStream :=
  { uniform := fun _ a _ => a, exponential := fun _ _ => 999 }

/-- An invalid configuration (negative starting price); every other
field is the default. -/
def cfgNeg : SimulationConfig :=
  { eth_price_drop := 30/100, market_liquidity_depth := 2000000,
    num_users := 1, whale_concentration := 0, start_price := -1 }

/-- Ten users with whale concentration 5%: the product
`num_users * whale_concentration = 1/2` is strictly between 0 and 1. -/
def cfgTen : SimulationConfig :=
  { eth_price_drop := 0, market_liquidity_depth := 1,
    num_users := 10, whale_concentration := 1/20, start_price := 2000 }

/-- Two users (one whale, one retail), zero price drop. -/
def cfgCalm : SimulationConfig :=
  { eth_price_drop := 0, market_liquidity_depth := 2000000,
    num_users := 2, whale_concentration := 1/2, start_price := 2000 }

/-- The ETH reserve at the post-shock price $1000 (a 50% shock from the
default $2000), with the hard-coded parameters of both sources. -/
def rStd : ReserveConfig :=
  { name := "ETH", price := 1000, lt := 825/1000, ltv := 80/100,
    lb := 5/100, decimals := 18 }

/-- A position with health factor 0.55 at `rStd` (collateral 1 ETH,
debt $1500): deep under water but with enough collateral for a partial
liquidation. -/
def uLowHF : User :=
  { uid := 0, eth_collateral := 1, usdc_debt := 1500,
    initial_eth := 1, initial_debt := 1500, is_liquidated := false, bad_debt := 0 }

/-- A position with health factor 11/12 at `rStd` (collateral 1 ETH,
debt $900). -/
def uMidHF : User :=
  { uid := 0, eth_collateral := 1, usdc_debt := 900,
    initial_eth := 1, initial_debt := 900, is_liquidated := false, bad_debt := 0 }

/-- A position whose bonus-adjusted seizure exceeds its collateral at
`rStd` (collateral 1 ETH, debt $3000): a wipe-out candidate. -/
def uThinCol : User :=
  { uid := 0, eth_collateral := 1, usdc_debt := 3000,
    initial_eth := 1, initial_debt := 3000, is_liquidated := false, bad_debt := 0 }

/-- A one-user simulation state at the post-shock price $1000 holding
the deep-under-water position `uLowHF`. -/
def sOne : SimState :=
  { config := cfgThin, eth_reserve := rStd, users := [uLowHF], history := [] }

/-!
## Theorems
-/

set_option maxHeartbeats 1000000 in
/-- C1: the claim says the reserve price stays strictly positive in
every round of every run.  The code has no guard: on the admissible
configuration `cfgThin` (50% drop, $1 liquidity depth, one retail user
drawn with collateral 1 ETH and target health factor 1.1), the first
round sells $787.50 into a $1 depth, giving a slippage fraction of
7.875, and the price update `1000 * (1 - 7.875)` drives the price to
exactly -6875, strictly negative. -/
theorem C1_price_driven_negative :
    (appRun cfgThin rngThin 1).eth_reserve.price = -6875 ∧
    (appRun cfgThin rngThin 1).eth_reserve.price < 0 := by
  constructor <;>
    norm_num [appRun, cfgThin, rngThin, initState, shockPhase, generate_users, genUser,
      drawEth, drawTargetHF, isWhaleIdx, cascadeLoop, runRound, liquidateUser,
      isLiquidatable, User.calculate_hf, snapshotOf, List.range_succ]

set_option maxHeartbeats 1000000 in
/-- C5: the claim says an invalid configuration is rejected before
population generation begins.  The code performs no validation at all:
with the negative starting price of `cfgNeg`, the run proceeds, the
population of one user is generated, and that user is created with the
nonsensical debt -3/4 that the invalid price back-solves to. -/
theorem C5_no_config_validation :
    (appRun cfgNeg rngThin 0).users.length = 1 ∧
    ((appRun cfgNeg rngThin 0).users.head?).map User.usdc_debt = some (-(3/4)) := by
  constructor <;>
    norm_num [appRun, cfgNeg, rngThin, initState, shockPhase, generate_users, genUser,
      drawEth, drawTargetHF, isWhaleIdx, cascadeLoop, runRound, liquidateUser,
      isLiquidatable, User.calculate_hf, snapshotOf, List.range_succ]

set_option maxHeartbeats 1000000 in
/-- C2, counterexample: `uLowHF` (collateral 1 ETH, debt $1500) has
pre-liquidation health factor 11/20 < 1 at `rStd` and satisfies the
partial-liquidation condition (seizure 0.7875 ETH does not exceed 1 ETH
of collateral), yet its recomputed health factor after the partial
liquidation is 187/800, strictly SMALLER than 11/20: partial liquidation
lowers the health factor of positions with health factor below
`(1 + LB) * LT = 0.86625`. -/
theorem C2_counterexample :
    User.calculate_hf uLowHF rStd = some (11/20) ∧ (11/20 : ℚ) < 1 ∧
    (uLowHF.usdc_debt * (1/2)) * (1 + rStd.lb) / rStd.price ≤ uLowHF.eth_collateral ∧
    User.calculate_hf (liquidateUser rStd uLowHF).1 rStd = some (187/800) ∧
    (187/800 : ℚ) < 11/20 := by
  refine ⟨?_, by norm_num, ?_, ?_, by norm_num⟩ <;>
    norm_num [User.calculate_hf, liquidateUser, uLowHF, rStd]

set_option maxHeartbeats 1000000 in
/-- C6, counterexample: with 10 users and whale concentration 1/20 the
claim would make `floor(10 * 1/20) = floor(1/2) = 0` of the indices
whales, so every index would be retail and draw from the exponential
distribution (999 under `rngLow`); but the code tests `i < 10 * 1/20`,
which is true at `i = 0`, so user 0 is generated as a whale with the
uniform [1000, 10000] draw (1000 under `rngLow`), not the exponential
one. -/
theorem C6_counterexample :
    Nat.floor ((10 : ℚ) * (1/20)) = 0 ∧
    ((generate_users 10 (1/20) (initState cfgTen).eth_reserve rngLow).head?).map
      User.eth_collateral = some 1000 ∧
    rngLow.exponential 0 10 = 999 ∧ (1000 : ℚ) ≠ 999 := by
  refine ⟨by norm_num, ?_, by norm_num [rngLow], by norm_num⟩
  norm_num [generate_users, genUser, drawEth, drawTargetHF, isWhaleIdx, initState, cfgTen,
    rngLow, List.range_succ]

set_option maxHeartbeats 1000000 in
/-- C7, counterexample: in the `cfgThin` run the single user holds
17/80 ETH of collateral after round 1; round 2 then runs at the negative
price -6875 produced by round 1, the bonus-adjusted seizure is negative,
and the partial-liquidation branch INCREASES the collateral to
1187/4400 ETH > 17/80 ETH, refuting the claim that collateral never
increases over a run. -/
theorem C7_counterexample :
    ((appRun cfgThin rngThin 1).users.head?).map User.eth_collateral = some (17/80) ∧
    ((appRun cfgThin rngThin 2).users.head?).map User.eth_collateral = some (1187/4400) ∧
    (17/80 : ℚ) < 1187/4400 := by
  refine ⟨?_, ?_, by norm_num⟩ <;>
    norm_num [appRun, cfgThin, rngThin, initState, shockPhase, generate_users, genUser,
      drawEth, drawTargetHF, isWhaleIdx, cascadeLoop, runRound, liquidateUser,
      isLiquidatable, User.calculate_hf, snapshotOf, List.range_succ]

/-- Helper: the partial-liquidation branch of `liquidateUser`, as an equation. -/
theorem liquidateUser_partial_eq (r : ReserveConfig) (u : User)
    (hc : (u.usdc_debt * (1/2)) * (1 + r.lb) / r.price ≤ u.eth_collateral) :
    (liquidateUser r u).1 =
      { u with eth_collateral :=
                 u.eth_collateral - (u.usdc_debt * (1/2)) * (1 + r.lb) / r.price,
               usdc_debt := u.usdc_debt - u.usdc_debt * (1/2) } := by
  simp only [liquidateUser, gt_iff_lt]
  rw [if_neg (not_lt.mpr hc)]

/-- Helper: the wipe-out branch of `liquidateUser`, as an equation. -/
theorem liquidateUser_wipeout (r : ReserveConfig) (u : User)
    (hc : u.eth_collateral < (u.usdc_debt * (1/2)) * (1 + r.lb) / r.price) :
    (liquidateUser r u).1 =
      { u with bad_debt := max 0 (u.usdc_debt - (u.eth_collateral * r.price) / (1 + r.lb)),
               eth_collateral := 0, usdc_debt := 0 } := by
  simp only [liquidateUser, gt_iff_lt]
  rw [if_pos hc]

/-- Helper: a zero-debt position is never liquidatable, at any reserve. -/
theorem zero_debt_not_liquidatable (u : User) (r : ReserveConfig) (h : u.usdc_debt = 0) :
    isLiquidatable u r = false := by
  simp [isLiquidatable, User.calculate_hf, h]

/-- Helper: position `i` after a round is position `i` before the round,
liquidated when it was selected. -/
theorem runRound_users_getElem? (s : SimState) (n i : ℕ) :
    (runRound s n).1.users[i]? = (s.users[i]?).map
      (fun u => if isLiquidatable u s.eth_reserve
                then (liquidateUser s.eth_reserve u).1 else u) := by
  simp [runRound, List.getElem?_map]

/-- Helper: a position that is at no price liquidatable is never touched
by the cascade loop. -/
theorem cascadeLoop_preserves_zero_debt :
    ∀ (fuel n : ℕ) (s : SimState) (i : ℕ) (u : User),
      s.users[i]? = some u → u.usdc_debt = 0 →
      (cascadeLoop fuel n s).users[i]? = some u := by
  intro fuel
  induction fuel with
  | zero => intro n s i u hu _; simpa [cascadeLoop] using hu
  | succ f ih =>
    intro n s i u hu hd
    have hstep : (runRound s n).1.users[i]? = some u := by
      rw [runRound_users_getElem?, hu]
      simp [zero_debt_not_liquidatable u _ hd]
    simp only [cascadeLoop]
    split
    · exact hu
    · split
      · exact hstep
      · exact ih (n + 1) (runRound s n).1 i u hstep hd

set_option maxHeartbeats 1000000 in
/-- C2, amended: a partial liquidation at positive price strictly raises
the health factor exactly when the pre-liquidation health factor
exceeds `(1 + LB) * LT`; the recomputed health factor equals
`2 * h - (1 + LB) * LT`. -/
theorem C2_partial_hf_increases (r : ReserveConfig) (u : User) (h : ℚ)
    (hp : 0 < r.price) (hlt : 0 < r.lt) (hd : 0 < u.usdc_debt)
    (hpre : User.calculate_hf u r = some h)
    (hNoWipe : (u.usdc_debt * (1/2)) * (1 + r.lb) / r.price ≤ u.eth_collateral)
    (hlow : (1 + r.lb) * r.lt < h) (hhi : h < 1) :
    User.calculate_hf (liquidateUser r u).1 r = some (2 * h - (1 + r.lb) * r.lt) ∧
    h < 2 * h - (1 + r.lb) * r.lt := by
  have hd0 : u.usdc_debt ≠ 0 := ne_of_gt hd
  have hpre2 : (u.eth_collateral * r.price * r.lt) / u.usdc_debt = h := by
    simpa [User.calculate_hf, hd0] using hpre
  have hcp : u.eth_collateral * r.price * r.lt = h * u.usdc_debt := by
    rw [div_eq_iff hd0] at hpre2; exact hpre2
  have hpinv : r.price * r.price⁻¹ = 1 := mul_inv_cancel₀ (ne_of_gt hp)
  constructor
  · rw [liquidateUser_partial_eq r u hNoWipe]
    have hd2 : u.usdc_debt - u.usdc_debt * (1/2) ≠ 0 := by
      intro hz; apply hd0; linarith
    simp only [User.calculate_hf, hd2, if_neg, if_false]
    congr 1
    rw [div_eq_iff hd2]
    linear_combination hcp - (u.usdc_debt * (1/2) * (1 + r.lb) * r.lt) * hpinv
  · linarith

/-- Helper: the target-health-factor draw is at least 1.01 whenever the
two uniform draws it can be are at least their lower bounds. -/
theorem drawTargetHF_ge (num_users : ℕ) (wc : ℚ) (rng : RandomStream) (i : ℕ)
    (hW : (12/10 : ℚ) ≤ rng.uniform (2 * i + 1) (12/10) (18/10))
    (hR : (101/100 : ℚ) ≤ rng.uniform (2 * i + 1) (101/100) 2) :
    (101/100 : ℚ) ≤ drawTargetHF num_users wc rng i := by
  unfold drawTargetHF; split
  · linarith
  · exact hR

/-- Helper: the health factor of a generated user, valued at any reserve
with the same price and liquidation threshold as the generation reserve,
is exactly the drawn target health factor (positive collateral draw,
positive target). -/
theorem genUser_hf (num_users : ℕ) (wc : ℚ) (rng : RandomStream) (i : ℕ)
    (r r2 : ReserveConfig) (hpr : r2.price = r.price) (hlt2 : r2.lt = r.lt)
    (hp : 0 < r.price) (hlt : 0 < r.lt)
    (he : 0 < drawEth num_users wc rng i)
    (ht0 : 0 < drawTargetHF num_users wc rng i) :
    User.calculate_hf (genUser num_users wc r rng i) r2 =
      some (drawTargetHF num_users wc rng i) := by
  have hdebt : drawEth num_users wc rng i * r.price * r.lt /
      drawTargetHF num_users wc rng i ≠ 0 := by positivity
  simp only [genUser, User.calculate_hf, hdebt, if_neg, if_false, hpr, hlt2]
  congr 1
  field_simp

/-- Helper: a generated user is not liquidatable at any reserve sharing
the generation price and threshold, as long as its collateral draw is
nonnegative and its target draw at least 1.01. -/
theorem genUser_not_liquidatable (num_users : ℕ) (wc : ℚ) (rng : RandomStream) (i : ℕ)
    (r r2 : ReserveConfig) (hpr : r2.price = r.price) (hlt2 : r2.lt = r.lt)
    (hp : 0 < r.price) (hlt : 0 < r.lt)
    (he0 : 0 ≤ drawEth num_users wc rng i)
    (ht : (101/100 : ℚ) ≤ drawTargetHF num_users wc rng i) :
    isLiquidatable (genUser num_users wc r rng i) r2 = false := by
  rcases eq_or_lt_of_le he0 with heq | hpos
  · apply zero_debt_not_liquidatable
    simp [genUser, ← heq]
  · have hhf := genUser_hf num_users wc rng i r r2 hpr hlt2 hp hlt hpos (by linarith)
    rw [isLiquidatable, hhf]
    simp only [decide_eq_false_iff_not, not_lt]
    linarith

set_option maxHeartbeats 1000000 in
/-- C3: every generated position's health factor at the generation price
equals its drawn target health factor exactly; the target is at least
1.01 whichever branch drew it, and the position is not liquidatable. -/
theorem C3_generated_hf_eq_target (num_users : ℕ) (wc : ℚ) (r : ReserveConfig)
    (rng : RandomStream) (i : ℕ) (hi : i < num_users)
    (hp : 0 < r.price) (hlt : 0 < r.lt)
    (he : 0 < drawEth num_users wc rng i)
    (hW : (12/10 : ℚ) ≤ rng.uniform (2 * i + 1) (12/10) (18/10))
    (hR : (101/100 : ℚ) ≤ rng.uniform (2 * i + 1) (101/100) 2) :
    ∃ u, (generate_users num_users wc r rng)[i]? = some u ∧
      User.calculate_hf u r = some (drawTargetHF num_users wc rng i) ∧
      (101/100 : ℚ) ≤ drawTargetHF num_users wc rng i ∧
      isLiquidatable u r = false := by
  have ht := drawTargetHF_ge num_users wc rng i hW hR
  refine ⟨genUser num_users wc r rng i, ?_,
    genUser_hf num_users wc rng i r r rfl rfl hp hlt he (by linarith), ht,
    genUser_not_liquidatable num_users wc rng i r r rfl rfl hp hlt (le_of_lt he) ht⟩
  simp [generate_users, List.getElem?_map, List.getElem?_range, hi]

/-- C4: a wipe-out (required seizure exceeding the collateral) sets the
bad debt to `max 0 (debt - collateral * price / (1 + LB))` at the
round's price, zeroes collateral and debt, and the resulting position is
terminal: it is liquidatable at no reserve state and is left untouched
by every later cascade round. -/
theorem C4_wipeout_terminal (r : ReserveConfig) (u : User)
    (hc : u.eth_collateral < (u.usdc_debt * (1/2)) * (1 + r.lb) / r.price) :
    (liquidateUser r u).1.bad_debt =
      max 0 (u.usdc_debt - (u.eth_collateral * r.price) / (1 + r.lb)) ∧
    (liquidateUser r u).1.eth_collateral = 0 ∧
    (liquidateUser r u).1.usdc_debt = 0 ∧
    (∀ r2 : ReserveConfig, isLiquidatable (liquidateUser r u).1 r2 = false) ∧
    (∀ (s : SimState) (fuel n i : ℕ), s.users[i]? = some (liquidateUser r u).1 →
      (cascadeLoop fuel n s).users[i]? = some (liquidateUser r u).1) := by
  rw [liquidateUser_wipeout r u hc]
  refine ⟨rfl, rfl, rfl, ?_, ?_⟩
  · intro r2
    exact zero_debt_not_liquidatable _ r2 rfl
  · intro s fuel n i hu
    exact cascadeLoop_preserves_zero_debt fuel n s i _ hu rfl

/-- C6, amended: user `i` is generated as a whale (uniform [1000,10000]
collateral, uniform [1.2,1.8] target) exactly when `i < numUsers *
whaleConcentration`, i.e. for the first CEIL(numUsers * whaleConcentration)
indices, not the first floor of it; the remaining indices are retail
(exponential collateral, uniform [1.01,2.0] target). -/
theorem C6_whale_split_ceil (num_users : ℕ) (wc : ℚ) (r : ReserveConfig)
    (rng : RandomStream) (i : ℕ) (hi : i < num_users) :
    ∃ u, (generate_users num_users wc r rng)[i]? = some u ∧
      u.eth_collateral = (if i < Nat.ceil ((num_users : ℚ) * wc)
        then rng.uniform (2 * i) 1000 10000
        else rng.exponential (2 * i) 10) ∧
      u.usdc_debt = u.eth_collateral * r.price * r.lt /
        (if i < Nat.ceil ((num_users : ℚ) * wc)
         then rng.uniform (2 * i + 1) (12/10) (18/10)
         else rng.uniform (2 * i + 1) (101/100) 2) := by
  refine ⟨genUser num_users wc r rng i, ?_, ?_, ?_⟩
  · simp [generate_users, List.getElem?_map, List.getElem?_range, hi]
  · simp [genUser, drawEth, isWhaleIdx, Nat.lt_ceil]
  · by_cases hcond : (i : ℚ) < (num_users : ℚ) * wc
    · simp [genUser, drawEth, drawTargetHF, isWhaleIdx, Nat.lt_ceil, hcond]
    · simp [genUser, drawEth, drawTargetHF, isWhaleIdx, Nat.lt_ceil, hcond]

/-- C7, amended: in a round executed at a strictly positive price, no
position's collateral or debt increases; the bad debt never decreases
and changes only by the wipe-out assignment, which requires the prior
bad debt to be zero and zeroes the debt (so it can happen at most once
per position).  The shock phase does not touch the positions at all. -/
theorem C7_round_monotone (s : SimState) (n : ℕ)
    (hp : 0 < s.eth_reserve.price) (hlb : 0 ≤ s.eth_reserve.lb)
    (hinv : ∀ u ∈ s.users, 0 ≤ u.eth_collateral ∧ 0 ≤ u.usdc_debt ∧
      (u.bad_debt ≠ 0 → u.usdc_debt = 0)) :
    (shockPhase s).users = s.users ∧
    ∀ (i : ℕ) (u v : User), s.users[i]? = some u →
      (runRound s n).1.users[i]? = some v →
      v.eth_collateral ≤ u.eth_collateral ∧ v.usdc_debt ≤ u.usdc_debt ∧
      u.bad_debt ≤ v.bad_debt ∧
      (v.bad_debt ≠ u.bad_debt → u.bad_debt = 0 ∧ v.usdc_debt = 0) := by
  refine ⟨rfl, ?_⟩
  intro i u v hu hv
  rw [runRound_users_getElem?, hu, Option.map_some'] at hv
  injection hv with hv
  obtain ⟨hc0, hd0, hbd⟩ := hinv u (List.getElem?_mem hu)
  by_cases hliq : isLiquidatable u s.eth_reserve
  · rw [if_pos hliq] at hv
    have hdne : u.usdc_debt ≠ 0 := by
      intro hz
      rw [zero_debt_not_liquidatable u _ hz] at hliq
      exact Bool.false_ne_true hliq
    have hbz : u.bad_debt = 0 := by
      by_contra hb
      exact hdne (hbd hb)
    rcases lt_or_le u.eth_collateral
        ((u.usdc_debt * (1/2)) * (1 + s.eth_reserve.lb) / s.eth_reserve.price) with hw | hnw
    · rw [liquidateUser_wipeout _ u hw] at hv
      subst hv
      refine ⟨hc0, hd0, ?_, fun _ => ⟨hbz, rfl⟩⟩
      rw [hbz]
      exact le_max_left 0 _
    · rw [liquidateUser_partial_eq _ u hnw] at hv
      subst hv
      have hsz : 0 ≤ (u.usdc_debt * (1/2)) * (1 + s.eth_reserve.lb) / s.eth_reserve.price := by
        apply div_nonneg _ (le_of_lt hp)
        apply mul_nonneg (by linarith) (by linarith)
      refine ⟨by simpa using sub_le_self u.eth_collateral hsz, by simp; linarith,
        le_refl _, fun hne => absurd rfl hne⟩
  · rw [if_neg hliq] at hv
    subst hv
    exact ⟨le_refl _, le_refl _, le_refl _, fun hne => absurd rfl hne⟩

/-- Helper: when no position is liquidatable, the cascade loop stops
immediately and changes nothing. -/
theorem cascadeLoop_no_liquidatable (fuel n : ℕ) (s : SimState)
    (h : s.users.filter (fun u => isLiquidatable u s.eth_reserve) = []) :
    cascadeLoop fuel n s = s := by
  cases fuel with
  | zero => rfl
  | succ f => simp [cascadeLoop, h]

set_option maxHeartbeats 1000000 in
/-- C8: with a zero price-drop fraction and a population whose draws are
in the documented supports (nonnegative collateral, target health factor
at least 1.01), the shock leaves the price unchanged, round 1 selects
nobody, the cascade performs zero rounds, and the history is exactly one
"Post-Shock" snapshot recording zero liquidatable users at the
unchanged price. -/
theorem C8_zero_drop_single_snapshot (cfg : SimulationConfig) (rng : RandomStream)
    (fuel : ℕ) (hdrop : cfg.eth_price_drop = 0) (hp : 0 < cfg.start_price)
    (hdraws : ∀ i, i < cfg.num_users →
      0 ≤ drawEth cfg.num_users cfg.whale_concentration rng i ∧
      (101/100 : ℚ) ≤ drawTargetHF cfg.num_users cfg.whale_concentration rng i) :
    (appRun cfg rng fuel).eth_reserve.price = cfg.start_price ∧
    ∃ snap, (appRun cfg rng fuel).history = [snap] ∧
      snap.stage = "Post-Shock" ∧ snap.liquidatable_users = 0 ∧
      snap.eth_price = cfg.start_price := by
  have happ : appRun cfg rng fuel = cascadeLoop fuel 1
      (shockPhase { initState cfg with
        users := generate_users cfg.num_users cfg.whale_concentration
          (initState cfg).eth_reserve rng }) := rfl
  have hpr : (shockPhase { initState cfg with
      users := generate_users cfg.num_users cfg.whale_concentration
        (initState cfg).eth_reserve rng }).eth_reserve.price =
      (initState cfg).eth_reserve.price := by
    simp [shockPhase, initState, hdrop]
  have hlt2 : (shockPhase { initState cfg with
      users := generate_users cfg.num_users cfg.whale_concentration
        (initState cfg).eth_reserve rng }).eth_reserve.lt =
      (initState cfg).eth_reserve.lt := rfl
  have hp0 : 0 < (initState cfg).eth_reserve.price := hp
  have hlt0 : (0:ℚ) < (initState cfg).eth_reserve.lt := by norm_num [initState]
  have hnl : ∀ u ∈ generate_users cfg.num_users cfg.whale_concentration
      (initState cfg).eth_reserve rng,
      isLiquidatable u (shockPhase { initState cfg with
        users := generate_users cfg.num_users cfg.whale_concentration
          (initState cfg).eth_reserve rng }).eth_reserve = false := by
    intro u hu
    rw [generate_users, List.mem_map] at hu
    obtain ⟨i, hi, rfl⟩ := hu
    rw [List.mem_range] at hi
    obtain ⟨he0, ht⟩ := hdraws i hi
    exact genUser_not_liquidatable cfg.num_users cfg.whale_concentration rng i
      (initState cfg).eth_reserve _ hpr hlt2 hp0 hlt0 he0 ht
  have hfil : (shockPhase { initState cfg with
      users := generate_users cfg.num_users cfg.whale_concentration
        (initState cfg).eth_reserve rng }).users.filter
        (fun u => isLiquidatable u (shockPhase { initState cfg with
          users := generate_users cfg.num_users cfg.whale_concentration
            (initState cfg).eth_reserve rng }).eth_reserve) = [] := by
    apply List.filter_eq_nil_iff.mpr
    intro u hu
    simp [hnl u hu]
  rw [happ, cascadeLoop_no_liquidatable fuel 1 _ hfil]
  refine ⟨hpr, snapshotOf "Post-Shock"
      (shockPhase { initState cfg with
        users := generate_users cfg.num_users cfg.whale_concentration
          (initState cfg).eth_reserve rng }).eth_reserve
      (generate_users cfg.num_users cfg.whale_concentration
        (initState cfg).eth_reserve rng), rfl, rfl, ?_, hpr⟩
  simpa [snapshotOf] using congrArg List.length hfil

/-- C9: population generation is a pure function of the configuration
and of the seeded stream (seeding with the fixed seed 42 fixes the
stream, modelled by passing the same `RandomStream`): two generation
runs from equal configurations agree position by position in id,
collateral and debt. -/
theorem C9_generation_deterministic (cfg1 cfg2 : SimulationConfig) (rng : RandomStream)
    (h : cfg1 = cfg2) (i : ℕ) :
    ((generate_users cfg1.num_users cfg1.whale_concentration
        (initState cfg1).eth_reserve rng)[i]?).map
      (fun u => (u.uid, u.eth_collateral, u.usdc_debt)) =
    ((generate_users cfg2.num_users cfg2.whale_concentration
        (initState cfg2).eth_reserve rng)[i]?).map
      (fun u => (u.uid, u.eth_collateral, u.usdc_debt)) := by
  subst h; rfl

/-- Helper: the batch copy of the per-user liquidation step is
definitionally the interactive driver's. -/
theorem batch_liquidateUser_eq : Batch.liquidateUser = liquidateUser := rfl

/-- Helper: the batch copy of the generation-loop body is definitionally
the interactive driver's. -/
theorem batch_genUser_eq : Batch.genUser = genUser := rfl

set_option maxHeartbeats 1000000 in
/-- Helper: on states agreeing in depth, reserve, users and history, the
two copies of the round produce equal slippage and agree again in every
component; both preserve their configs. -/
theorem runRound_batch_components (a : SimState) (b : Batch.BState) (n : ℕ)
    (hd : a.config.market_liquidity_depth = b.config.market_liquidity_depth)
    (hr : a.eth_reserve = b.eth_reserve) (hu : a.users = b.users)
    (hh : a.history = b.history) :
    (runRound a n).2 = (Batch.runRound b n).2 ∧
    (runRound a n).1.eth_reserve = (Batch.runRound b n).1.eth_reserve ∧
    (runRound a n).1.users = (Batch.runRound b n).1.users ∧
    (runRound a n).1.history = (Batch.runRound b n).1.history ∧
    (runRound a n).1.config = a.config ∧
    (Batch.runRound b n).1.config = b.config := by
  simp only [runRound, Batch.runRound, batch_liquidateUser_eq, hr, hu, hh, hd]
  exact ⟨trivial, trivial, trivial, trivial, trivial, trivial⟩

set_option maxHeartbeats 1000000 in
/-- Helper: from component-wise equal states, the two copies of the
cascade loop produce equal histories. -/
theorem cascadeLoop_batch_history : ∀ (fuel n : ℕ) (a : SimState) (b : Batch.BState),
    a.config.market_liquidity_depth = b.config.market_liquidity_depth →
    a.eth_reserve = b.eth_reserve → a.users = b.users → a.history = b.history →
    (cascadeLoop fuel n a).history = (Batch.cascadeLoop fuel n b).history := by
  intro fuel
  induction fuel with
  | zero =>
    intro n a b _ _ _ hh
    simpa [cascadeLoop, Batch.cascadeLoop] using hh
  | succ f ih =>
    intro n a b hd hr hu hh
    obtain ⟨h2, hre, hus, hhi, hca, hcb⟩ := runRound_batch_components a b n hd hr hu hh
    simp only [cascadeLoop, Batch.cascadeLoop]
    rw [hu, hr, h2]
    split
    · exact hh
    · split
      · exact hhi
      · exact ih (n + 1) (runRound a n).1 (Batch.runRound b n).1
          (by rw [hca, hcb]; exact hd) hre hus hhi

/-- C10: the two entry points are equivalent engines.  At the batch
script's hard-coded configuration (30% drop, $2M depth, 1000 users, 1%
whales, $2000 start), the interactive driver of `src/app.py` and the
batch script of `src/aave_simulation.py` produce identical snapshot
histories, for every random stream and every number of rounds. -/
theorem C10_engines_equivalent (rng : RandomStream) (fuel : ℕ) :
    (appRun cfgHard rng fuel).history = (Batch.run rng fuel).history := by
  apply cascadeLoop_batch_history fuel 1
  · rfl
  · rfl
  · show (shockPhase _).users = (Batch.shockPhase _).users
    simp only [shockPhase, Batch.shockPhase, generate_users, Batch.generate_users,
      batch_genUser_eq, initState, Batch.initState, cfgHard, Batch.defaultConfig,
      List.nil_append]
  · show (shockPhase _).history = (Batch.shockPhase _).history
    simp only [shockPhase, Batch.shockPhase, generate_users, Batch.generate_users,
      batch_genUser_eq, initState, Batch.initState, cfgHard, Batch.defaultConfig,
      List.nil_append]

/-- Witness for C2 at `uMidHF` (pre-HF 11/12, above the 0.86625
threshold): the post-liquidation health factor is 2321/2400 > 11/12. -/
theorem C2_witness :
    User.calculate_hf (liquidateUser rStd uMidHF).1 rStd =
      some (2 * (11/12) - (1 + rStd.lb) * rStd.lt) ∧
    (11/12 : ℚ) < 2 * (11/12) - (1 + rStd.lb) * rStd.lt :=
  C2_partial_hf_increases rStd uMidHF (11/12)
    (by norm_num [rStd]) (by norm_num [rStd]) (by norm_num [uMidHF])
    (by norm_num [User.calculate_hf, uMidHF, rStd])
    (by norm_num [uMidHF, rStd]) (by norm_num [rStd]) (by norm_num)

/-- Witness for C3: the single retail user of a one-user population
drawn by `rngLow` (collateral 999, target 1.01) has health factor
exactly 1.01 and is not liquidatable. -/
theorem C3_witness :
    ∃ u, (generate_users 1 0 rStd rngLow)[0]? = some u ∧
      User.calculate_hf u rStd = some (drawTargetHF 1 0 rngLow 0) ∧
      (101/100 : ℚ) ≤ drawTargetHF 1 0 rngLow 0 ∧
      isLiquidatable u rStd = false :=
  C3_generated_hf_eq_target 1 0 rStd rngLow 0 (by norm_num)
    (by norm_num [rStd]) (by norm_num [rStd])
    (by norm_num [drawEth, isWhaleIdx, rngLow])
    (by norm_num [rngLow]) (by norm_num [rngLow])

/-- Witness for C4 at `uThinCol` (collateral 1 ETH, debt $3000, seizure
1.575 ETH): wiped out with bad debt `max 0 (3000 - 1000/1.05)`. -/
theorem C4_witness :
    (liquidateUser rStd uThinCol).1.bad_debt =
      max 0 (uThinCol.usdc_debt - (uThinCol.eth_collateral * rStd.price) / (1 + rStd.lb)) ∧
    (liquidateUser rStd uThinCol).1.eth_collateral = 0 ∧
    (liquidateUser rStd uThinCol).1.usdc_debt = 0 ∧
    (∀ r2 : ReserveConfig, isLiquidatable (liquidateUser rStd uThinCol).1 r2 = false) ∧
    (∀ (s : SimState) (fuel n i : ℕ),
      s.users[i]? = some (liquidateUser rStd uThinCol).1 →
      (cascadeLoop fuel n s).users[i]? = some (liquidateUser rStd uThinCol).1) :=
  C4_wipeout_terminal rStd uThinCol (by norm_num [uThinCol, rStd])

/-- Witness for C6 at 10 users with whale concentration 1/20: index 0 is
below the ceiling 1 of 10 * (1/20) = 1/2, hence a whale drawing the
uniform [1000, 10000] collateral. -/
theorem C6_witness :
    ∃ u, (generate_users 10 (1/20) rStd rngLow)[0]? = some u ∧
      u.eth_collateral = (if 0 < Nat.ceil ((10 : ℚ) * (1/20))
        then rngLow.uniform (2 * 0) 1000 10000
        else rngLow.exponential (2 * 0) 10) ∧
      u.usdc_debt = u.eth_collateral * rStd.price * rStd.lt /
        (if 0 < Nat.ceil ((10 : ℚ) * (1/20))
         then rngLow.uniform (2 * 0 + 1) (12/10) (18/10)
         else rngLow.uniform (2 * 0 + 1) (101/100) 2) :=
  C6_whale_split_ceil 10 (1/20) rStd rngLow 0 (by norm_num)

/-- Witness for C7 on the one-user state `sOne`. -/
theorem C7_witness :
    (shockPhase sOne).users = sOne.users ∧
    ∀ (i : ℕ) (u v : User), sOne.users[i]? = some u →
      (runRound sOne 1).1.users[i]? = some v →
      v.eth_collateral ≤ u.eth_collateral ∧ v.usdc_debt ≤ u.usdc_debt ∧
      u.bad_debt ≤ v.bad_debt ∧
      (v.bad_debt ≠ u.bad_debt → u.bad_debt = 0 ∧ v.usdc_debt = 0) :=
  C7_round_monotone sOne 1 (by norm_num [sOne, rStd]) (by norm_num [sOne, rStd])
    (by
      intro u hu
      simp only [sOne, List.mem_singleton] at hu
      subst hu
      norm_num [uLowHF])

/-- Witness for C8 on `cfgCalm` (zero drop, one whale and one retail
user drawn by `rngLow`). -/
theorem C8_witness :
    (appRun cfgCalm rngLow 3).eth_reserve.price = cfgCalm.start_price ∧
    ∃ snap, (appRun cfgCalm rngLow 3).history = [snap] ∧
      snap.stage = "Post-Shock" ∧ snap.liquidatable_users = 0 ∧
      snap.eth_price = cfgCalm.start_price :=
  C8_zero_drop_single_snapshot cfgCalm rngLow 3 (by norm_num [cfgCalm])
    (by norm_num [cfgCalm])
    (by
      intro i hi
      simp only [cfgCalm] at hi ⊢
      interval_cases i <;>
        norm_num [drawEth, drawTargetHF, isWhaleIdx, rngLow])

/-- Witness for C9 at the hard-coded configuration. -/
theorem C9_witness :
    ((generate_users cfgHard.num_users cfgHard.whale_concentration
        (initState cfgHard).eth_reserve rngLow)[0]?).map
      (fun u => (u.uid, u.eth_collateral, u.usdc_debt)) =
    ((generate_users cfgHard.num_users cfgHard.whale_concentration
        (initState cfgHard).eth_reserve rngLow)[0]?).map
      (fun u => (u.uid, u.eth_collateral, u.usdc_debt)) :=
  C9_generation_deterministic cfgHard cfgHard rngLow rfl 0
